import Mathlib

/-!
Shallow embedding of `src/source/main.c` of the repository
`nofuss-SDL2-rendering-without-graphics-api`.

The program is a single straight-line `main`: SDL setup (init, window,
renderer, streaming texture, texture query, pixel format, logical size,
draw color, client pixel buffer), then a `while (!window_close_requested)`
loop that polls events, fills the client pixel buffer procedurally,
locks the texture, converts and copies the client pixels into the
texture, unlocks, clears, copies and presents; finally `cleanup` frees
the SDL resources and returns 0.

SDL calls are modelled by an environment that supplies each call's
result; the observable behaviour (calls made, log messages, texture
writes, cleanup actions, exit code) is collected in traces.
-/

/- Constants from main.c lines 5-11. -/
def OS_FAILURE_RETURN_CODE : Int := -1
def WINDOW_TITLE : String := "SDL2 rendering without graphics API"
def WINDOW_WIDTH : Nat := 800
def WINDOW_HEIGHT : Nat := 600
def WINDOW_WIDTH_VIRTUAL : Nat := 160
def WINDOW_HEIGHT_VIRTUAL : Nat := 144
def WINDOW_PIXELS_TOTAL_VIRTUAL : Nat := WINDOW_WIDTH_VIRTUAL * WINDOW_HEIGHT_VIRTUAL

/- SDL constants (values from SDL2 headers). -/
def SDLK_ESCAPE : Nat := 27
def SDL_PIXELFORMAT_RGBA8888 : Nat := 0x16462004
def SDL_TEXTUREACCESS_STREAMING : Nat := 1

/--
`client_pixel_rgba_ts` (main.c lines 37-42).  Each byte field is
`Option Nat`: `none` models a byte that has never been assigned since
`malloc` (the buffer is not zero-initialized), `some v` a byte holding
value `v`.
-/
structure client_pixel_rgba_ts where
  red : Option Nat
  green : Option Nat
  blue : Option Nat
  alpha : Option Nat
deriving DecidableEq, Repr

/-- A freshly `malloc`ed pixel: no field has been assigned yet. -/
def freshMallocPixel : client_pixel_rgba_ts :=
  { red := none, green := none, blue := none, alpha := none }

/--
Body of the procedural fill (main.c lines 178-192) for the pixel at
`client_texel_index`: the chain of `if`/`else if` branches, each of
which assigns only the fields the C code assigns, leaving the others
as they were.
-/
def fillPixel (old : client_pixel_rgba_ts) (client_texel_index : Nat) :
    client_pixel_rgba_ts :=
  if client_texel_index = 0 then
    { old with red := some 0xFF }
  else if client_texel_index = WINDOW_WIDTH_VIRTUAL - 1 then
    { old with green := some 0xFF }
  else if client_texel_index = (WINDOW_HEIGHT_VIRTUAL - 1) * WINDOW_WIDTH_VIRTUAL then
    { old with blue := some 0xFF }
  else if client_texel_index = WINDOW_PIXELS_TOTAL_VIRTUAL - 1 then
    { old with red := some 0x00, green := some 0x00, blue := some 0x00 }
  else
    { red := some 0xFF, green := some 0xFF, blue := some 0xFF, alpha := some 0xFF }

/--
The nested fill loops (main.c lines 174-194): for each `texel_y` then
each `texel_x`, update the pixel at `client_texel_index =
WINDOW_WIDTH_VIRTUAL * texel_y + texel_x` in place.  The buffer is a
function from index to pixel.
-/
def fillBuffer (p_client_pixels_rgba : Nat → client_pixel_rgba_ts) :
    Nat → client_pixel_rgba_ts :=
  (List.range WINDOW_HEIGHT_VIRTUAL).foldl
    (fun buf texel_y =>
      (List.range WINDOW_WIDTH_VIRTUAL).foldl
        (fun buf2 texel_x =>
          let client_texel_index := WINDOW_WIDTH_VIRTUAL * texel_y + texel_x
          Function.update buf2 client_texel_index
            (fillPixel (buf2 client_texel_index) client_texel_index))
        buf)
    p_client_pixels_rgba

/- Generic fold lemmas used to characterise `fillBuffer` pointwise. -/

theorem foldl_update_apply (f : client_pixel_rgba_ts → Nat → client_pixel_rgba_ts)
    (l : List Nat) (hl : l.Nodup) (b : Nat → client_pixel_rgba_ts) (j : Nat) :
    (l.foldl (fun b2 i => Function.update b2 i (f (b2 i) i)) b) j =
      if j ∈ l then f (b j) j else b j := by
  induction l generalizing b with
  | nil => simp
  | cons i l ih =>
    rcases List.nodup_cons.mp hl with ⟨hi, hl'⟩
    rw [List.foldl_cons, ih hl']
    by_cases hjl : j ∈ l
    · have hji : j ≠ i := fun h => hi (h ▸ hjl)
      simp [hjl, hji, Function.update_apply]
    · by_cases hji : j = i
      · subst hji
        simp [hjl, Function.update_apply]
      · simp [hjl, hji, Function.update_apply]

theorem foldl_foldl_flatMap {α β γ : Type} (g : γ → β → γ)
    (f : α → List β) (l : List α) (init : γ) :
    l.foldl (fun b a => (f a).foldl g b) init = (l.flatMap f).foldl g init := by
  induction l generalizing init with
  | nil => simp
  | cons a l ih => simp [List.foldl_cons, List.flatMap_cons, List.foldl_append, ih]

theorem flatMap_range_rows (w h : Nat) :
    (List.range h).flatMap (fun y => (List.range w).map (fun x => w * y + x)) =
      List.range (w * h) := by
  induction h with
  | zero => simp
  | succ h ih =>
    rw [List.range_succ, List.flatMap_append, ih, Nat.mul_succ, List.range_add]
    simp

/--
Pointwise characterisation of the fill loop: each index below
`WINDOW_PIXELS_TOTAL_VIRTUAL` is updated exactly once by `fillPixel`,
every other index is untouched.
-/
theorem fillBuffer_apply (b : Nat → client_pixel_rgba_ts) (j : Nat) :
    fillBuffer b j =
      if j < WINDOW_PIXELS_TOTAL_VIRTUAL then fillPixel (b j) j else b j := by
  have hfun : (fun (buf : Nat → client_pixel_rgba_ts) texel_y =>
        (List.range WINDOW_WIDTH_VIRTUAL).foldl
          (fun buf2 texel_x =>
            let client_texel_index := WINDOW_WIDTH_VIRTUAL * texel_y + texel_x
            Function.update buf2 client_texel_index
              (fillPixel (buf2 client_texel_index) client_texel_index))
          buf) =
      (fun (buf : Nat → client_pixel_rgba_ts) texel_y =>
        ((List.range WINDOW_WIDTH_VIRTUAL).map
            (fun x => WINDOW_WIDTH_VIRTUAL * texel_y + x)).foldl
          (fun b2 i => Function.update b2 i (fillPixel (b2 i) i)) buf) := by
    funext buf texel_y
    rw [List.foldl_map]
  have hrw : fillBuffer b =
      ((List.range WINDOW_HEIGHT_VIRTUAL).flatMap
          (fun y => (List.range WINDOW_WIDTH_VIRTUAL).map
            (fun x => WINDOW_WIDTH_VIRTUAL * y + x))).foldl
        (fun b2 i => Function.update b2 i (fillPixel (b2 i) i)) b := by
    unfold fillBuffer
    rw [hfun, foldl_foldl_flatMap]
  rw [hrw, flatMap_range_rows, foldl_update_apply _ _ (List.nodup_range _) b j,
    WINDOW_PIXELS_TOTAL_VIRTUAL]
  by_cases hj : j < WINDOW_WIDTH_VIRTUAL * WINDOW_HEIGHT_VIRTUAL <;>
    simp [hj, List.mem_range]

/- ------------------------------------------------------------------
   Events and the event-polling loop (main.c lines 151-171)
   ------------------------------------------------------------------ -/

/--
An SDL event as the switch in main.c lines 159-170 distinguishes it:
`SDL_QUIT`, `SDL_KEYDOWN` with its `keysym.sym`, or any other event
type (hitting no `case`).
-/
inductive Event where
  | quit
  | keydown (sym : Nat)
  | other (ty : Nat)
deriving DecidableEq, Repr

/--
Effect of handling one polled event on `window_close_requested`
(the switch in main.c lines 159-170).
-/
def processEvent (window_close_requested : Bool) (e : Event) : Bool :=
  match e with
  | Event.quit => true
  | Event.keydown sym =>
      if sym = SDLK_ESCAPE then true else window_close_requested
  | Event.other _ => window_close_requested

/--
The inner `while (SDL_PollEvent(...) != 0)` loop (main.c lines
156-171): the pending events are polled and handled in order, to
exhaustion.
-/
def processEvents (window_close_requested : Bool) (events : List Event) : Bool :=
  events.foldl processEvent window_close_requested

/- ------------------------------------------------------------------
   Texture upload (main.c lines 201-233)
   ------------------------------------------------------------------ -/

/-- A single store `p_texture_pixels_rgba[texture_texel_index] = v`. -/
structure TexWrite where
  index : Nat
  value : Nat
deriving DecidableEq, Repr

/--
The conversion-and-copy double loop (main.c lines 212-233).
`mapRGB` abstracts `SDL_MapRGB(p_texture_pixel_format, r, g, b)`; it
receives the (possibly unassigned) red, green and blue bytes of the
client pixel.  `texture_pitch` is the pitch in bytes reported by
`SDL_LockTexture`; `padded_texels_per_row = texture_pitch / 4`
(`sizeof(uint32_t) = 4`).  The result is the ordered list of stores
performed on the texture memory.
-/
def uploadWrites (mapRGB : Option Nat → Option Nat → Option Nat → Nat)
    (p_client_pixels_rgba : Nat → client_pixel_rgba_ts)
    (texture_pitch : Nat) : List TexWrite :=
  let padded_texels_per_row := texture_pitch / 4
  (List.range WINDOW_HEIGHT_VIRTUAL).flatMap (fun texel_y =>
    (List.range WINDOW_WIDTH_VIRTUAL).map (fun texel_x =>
      let texture_texel_index := padded_texels_per_row * texel_y + texel_x
      let client_texel_index := WINDOW_WIDTH_VIRTUAL * texel_y + texel_x
      let p_client_pixel_color := p_client_pixels_rgba client_texel_index
      { index := texture_texel_index,
        value := mapRGB p_client_pixel_color.red p_client_pixel_color.green
          p_client_pixel_color.blue : TexWrite }))

/- ------------------------------------------------------------------
   One iteration of the render loop (main.c lines 152-263)
   ------------------------------------------------------------------ -/

/--
Environment for one loop iteration: the pending events and the results
SDL returns for the fallible calls of that iteration.  `lockPitch` and
`lockPtr` are what `SDL_LockTexture` stores through its out-parameters
on success; `pitchInitial` is the indeterminate initial value of the
uninitialized local `texture_pitch`, which survives when the lock
fails.
-/
structure IterInput where
  events : List Event
  lockResult : Int
  lockPtr : Nat
  lockPitch : Nat
  pitchInitial : Nat
  clearResult : Int
  copyResult : Int
deriving DecidableEq, Repr

/-- Program state carried across loop iterations. -/
structure IterState where
  window_close_requested : Bool
  clientBuffer : Nat → client_pixel_rgba_ts

/-- Observable steps of one render-loop iteration, in program order. -/
inductive Act where
  | pollEvent (e : Event)
  | fillClientBuffer
  | lockTexture (result : Int)
  | logError (msg : String)
  | writeTexture (ptr : Option Nat) (w : TexWrite)
  | unlockTexture
  | renderClear (result : Int)
  | renderCopy (result : Int)
  | renderPresent
deriving DecidableEq, Repr

/--
One iteration of the `while (!window_close_requested)` body
(main.c lines 152-263): poll all pending events, fill the client
buffer, lock the texture (logging on failure but continuing, with
`p_texture_pixels` still NULL, modelled as `none`), run the copy loop,
unlock, clear (logging on failure), copy (logging on failure), present.
Returns the successor state and the iteration's trace.
-/
def renderIteration (mapRGB : Option Nat → Option Nat → Option Nat → Nat)
    (input : IterInput) (s : IterState) : IterState × List Act :=
  let window_close_requested := processEvents s.window_close_requested input.events
  let filled := fillBuffer s.clientBuffer
  let p_texture_pixels : Option Nat :=
    if input.lockResult = 0 then some input.lockPtr else none
  let texture_pitch :=
    if input.lockResult = 0 then input.lockPitch else input.pitchInitial
  let lockLog : List Act :=
    if input.lockResult = 0 then []
    else [Act.logError "SDL2 texture could not be locked"]
  let clearLog : List Act :=
    if input.clearResult = 0 then []
    else [Act.logError "SDL2 Render clear failed"]
  let copyLog : List Act :=
    if input.copyResult = 0 then []
    else [Act.logError "SDL2 Render copy failed"]
  (⟨window_close_requested, filled⟩,
    input.events.map Act.pollEvent
      ++ [Act.fillClientBuffer]
      ++ [Act.lockTexture input.lockResult] ++ lockLog
      ++ (uploadWrites mapRGB filled texture_pitch).map
          (Act.writeTexture p_texture_pixels)
      ++ [Act.unlockTexture]
      ++ [Act.renderClear input.clearResult] ++ clearLog
      ++ [Act.renderCopy input.copyResult] ++ copyLog
      ++ [Act.renderPresent])

/- ------------------------------------------------------------------
   Setup sequence before the loop (main.c lines 56-148)
   ------------------------------------------------------------------ -/

/--
Environment supplying the result of every pre-loop SDL/libc call.
Pointer-returning calls yield `Option Nat` (`none` = NULL, `some id` a
resource handle); int-returning calls yield their return value.
`queriedFormat`, `queriedW`, `queriedH` are what `SDL_QueryTexture`
stores through its out-parameters on success.
-/
structure SetupEnv where
  initResult : Int
  windowResult : Option Nat
  rendererResult : Option Nat
  textureResult : Option Nat
  queryResult : Int
  queriedFormat : Nat
  queriedW : Nat
  queriedH : Nat
  allocFormatResult : Option Nat
  logicalSizeResult : Int
  drawColorResult : Int
  mallocResult : Option Nat
deriving DecidableEq, Repr

/-- The pre-loop calls, with the arguments the code passes. -/
inductive SetupCall where
  | sdlInit
  | createWindow (title : String) (w h : Nat)
  | createRenderer
  | createTexture (format access w h : Nat)
  | queryTexture
  | allocFormat (format : Nat)
  | setLogicalSize (w h : Nat)
  | setRenderDrawColor (r g b a : Nat)
  | mallocBuffer (bytes : Nat)
deriving DecidableEq, Repr

/--
Arguments of a `cleanup` call, in parameter order:
`(p_window, p_renderer, p_texture, p_pixel_format)`; `none` = NULL.
-/
def CleanupArgs : Type := Option Nat × Option Nat × Option Nat × Option Nat

instance : DecidableEq CleanupArgs := by
  unfold CleanupArgs
  infer_instance

instance : Repr CleanupArgs := by
  unfold CleanupArgs
  infer_instance

/--
Outcome of the setup phase: either some step failed — the program logs
`log`, calls `cleanup` with `args` and returns
`OS_FAILURE_RETURN_CODE` — or every step succeeded and the loop is
entered with the created resources in hand.
-/
inductive SetupOutcome where
  | fail (log : String) (args : CleanupArgs)
  | ok (p_window p_renderer p_window_texture p_texture_pixel_format
        p_client_pixels_rgba : Nat) (window_texture_format : Nat)
deriving DecidableEq, Repr

/--
The straight-line setup sequence, main.c lines 56-148: each step in
order; on the first failure, the log message, the `cleanup` arguments
of that error path, and the calls made so far.  The second component
is the list of calls issued.
-/
def setup (env : SetupEnv) : SetupOutcome × List SetupCall :=
  let calls1 := [SetupCall.sdlInit]
  if env.initResult ≠ 0 then
    (SetupOutcome.fail "Required SDL2 subsystems could not be initialized"
      (none, none, none, none), calls1)
  else
    let calls2 := calls1 ++
      [SetupCall.createWindow WINDOW_TITLE WINDOW_WIDTH WINDOW_HEIGHT]
    match env.windowResult with
    | none =>
        (SetupOutcome.fail "SDL2 window could not be created"
          (none, none, none, none), calls2)
    | some p_window =>
      let calls3 := calls2 ++ [SetupCall.createRenderer]
      match env.rendererResult with
      | none =>
          (SetupOutcome.fail "SDL2 renderer could not be created"
            (some p_window, none, none, none), calls3)
      | some p_renderer =>
        let calls4 := calls3 ++
          [SetupCall.createTexture SDL_PIXELFORMAT_RGBA8888
            SDL_TEXTUREACCESS_STREAMING WINDOW_WIDTH_VIRTUAL WINDOW_HEIGHT_VIRTUAL]
        match env.textureResult with
        | none =>
            (SetupOutcome.fail "SDL2 texture could not be created"
              (some p_window, some p_renderer, none, none), calls4)
        | some p_window_texture =>
          let calls5 := calls4 ++ [SetupCall.queryTexture]
          if env.queryResult ≠ 0 then
            (SetupOutcome.fail "SDL2 texture attributes could not be queried"
              (some p_window, some p_renderer, some p_window_texture, none), calls5)
          else
            let window_texture_format := env.queriedFormat
            let calls6 := calls5 ++ [SetupCall.allocFormat window_texture_format]
            match env.allocFormatResult with
            | none =>
                (SetupOutcome.fail "SDL2 texture pixel format could not be determined"
                  (some p_window, some p_renderer, some p_window_texture, none), calls6)
            | some p_texture_pixel_format =>
              let calls7 := calls6 ++
                [SetupCall.setLogicalSize WINDOW_WIDTH_VIRTUAL WINDOW_HEIGHT_VIRTUAL]
              if env.logicalSizeResult ≠ 0 then
                (SetupOutcome.fail "SDL2 logical render size could not be set"
                  (some p_window, some p_renderer, some p_window_texture,
                    some p_texture_pixel_format), calls7)
              else
                let calls8 := calls7 ++
                  [SetupCall.setRenderDrawColor 0x32 0x96 0xFF 0xFF]
                if env.drawColorResult ≠ 0 then
                  (SetupOutcome.fail "SDL2 renderer draw color could not be set"
                    (some p_window, some p_renderer, some p_window_texture,
                      some p_texture_pixel_format), calls8)
                else
                  let calls9 := calls8 ++
                    [SetupCall.mallocBuffer (4 * WINDOW_PIXELS_TOTAL_VIRTUAL)]
                  match env.mallocResult with
                  | none =>
                      (SetupOutcome.fail
                        "Could not allocate client-side pixel buffer for offline rendering"
                        (some p_window, some p_renderer, some p_window_texture,
                          some p_texture_pixel_format), calls9)
                  | some p_client_pixels_rgba =>
                      (SetupOutcome.ok p_window p_renderer p_window_texture
                        p_texture_pixel_format p_client_pixels_rgba
                        window_texture_format, calls9)

/- ------------------------------------------------------------------
   cleanup (main.c lines 273-297)
   ------------------------------------------------------------------ -/

/-- The individual resource-release steps `cleanup` performs. -/
inductive CleanupAction where
  | freeFormat (p : Option Nat)
  | destroyTexture (p : Nat)
  | destroyRenderer (p : Nat)
  | destroyWindow (p : Nat)
  | sdlQuit
deriving DecidableEq, Repr

/--
`cleanup` (main.c lines 273-297): `SDL_FreeFormat` unconditionally,
then each of texture, renderer, window only if non-NULL, then
`SDL_Quit` unconditionally.
-/
def cleanup (args : CleanupArgs) : List CleanupAction :=
  match args with
  | (p_window, p_renderer, p_texture, p_pixel_format) =>
    [CleanupAction.freeFormat p_pixel_format]
      ++ (match p_texture with
          | some t => [CleanupAction.destroyTexture t]
          | none => [])
      ++ (match p_renderer with
          | some r => [CleanupAction.destroyRenderer r]
          | none => [])
      ++ (match p_window with
          | some w => [CleanupAction.destroyWindow w]
          | none => [])
      ++ [CleanupAction.sdlQuit]

/- ------------------------------------------------------------------
   The whole program (main.c lines 53-270)
   ------------------------------------------------------------------ -/

/--
Environment of a whole run: setup results, the per-iteration inputs
(the modelled horizon of the run), the abstract
`SDL_MapRGB(p_texture_pixel_format, ...)` and the indeterminate
contents of the freshly `malloc`ed client buffer.
-/
structure ProgramEnv where
  setupEnv : SetupEnv
  iterations : List IterInput
  mapRGB : Option Nat → Option Nat → Option Nat → Nat
  initialBuffer : Nat → client_pixel_rgba_ts

/--
The `while (!window_close_requested)` loop (main.c lines 152-263),
driven by the list of per-iteration inputs.  Returns `some` final
state when the loop exits (the condition at the top reads false) and
`none` when the modelled inputs run out with the loop still going
(the real program would keep iterating), together with the trace.
-/
def runLoop (mapRGB : Option Nat → Option Nat → Option Nat → Nat) :
    List IterInput → IterState → Option IterState × List Act
  | inputs, s =>
    if s.window_close_requested then (some s, [])
    else
      match inputs with
      | [] => (none, [])
      | input :: rest =>
        let step := renderIteration mapRGB input s
        let next := runLoop mapRGB rest step.1
        (next.1, step.2 ++ next.2)

/-- Observable result of a whole run of `main`. -/
structure RunResult where
  exit : Option Int
  setupCalls : List SetupCall
  loopTrace : List Act
  cleanupCalls : List CleanupArgs

/--
`main` (main.c lines 53-270): run the setup; on failure call `cleanup`
with that error path's arguments and return `OS_FAILURE_RETURN_CODE`;
on success run the loop from `window_close_requested = 0` and the
fresh buffer, and when it exits call `cleanup` with all four resources
and return 0.  `exit = none` models the loop still running at the end
of the modelled inputs.
-/
def runMain (env : ProgramEnv) : RunResult :=
  match setup env.setupEnv with
  | (SetupOutcome.fail _ args, calls) =>
      { exit := some OS_FAILURE_RETURN_CODE, setupCalls := calls,
        loopTrace := [], cleanupCalls := [args] }
  | (SetupOutcome.ok p_window p_renderer p_window_texture
      p_texture_pixel_format _ _, calls) =>
      let s0 : IterState := ⟨false, env.initialBuffer⟩
      let lr := runLoop env.mapRGB env.iterations s0
      match lr.1 with
      | none =>
          { exit := none, setupCalls := calls, loopTrace := lr.2,
            cleanupCalls := [] }
      | some _ =>
          { exit := some 0, setupCalls := calls, loopTrace := lr.2,
            cleanupCalls :=
              [(some p_window, some p_renderer, some p_window_texture,
                some p_texture_pixel_format)] }

/- ------------------------------------------------------------------
   Facts about the procedural fill
   ------------------------------------------------------------------ -/

/-- Applying the fill body twice at the same index is the same as once. -/
theorem fillPixel_idem (p : client_pixel_rgba_ts) (i : Nat) :
    fillPixel (fillPixel p i) i = fillPixel p i := by
  unfold fillPixel
  split_ifs <;> rfl

/--
At every index other than the four special-cased ones, the fill body
assigns all four fields to `0xFF`, independently of the old pixel.
-/
theorem fillPixel_default (p : client_pixel_rgba_ts) (i : Nat)
    (h0 : i ≠ 0) (h1 : i ≠ 159) (h2 : i ≠ 22880) (h3 : i ≠ 23039) :
    fillPixel p i =
      { red := some 0xFF, green := some 0xFF, blue := some 0xFF,
        alpha := some 0xFF } := by
  unfold fillPixel
  norm_num [WINDOW_WIDTH_VIRTUAL, WINDOW_HEIGHT_VIRTUAL,
    WINDOW_PIXELS_TOTAL_VIRTUAL, h0, h1, h2, h3]

/-- The whole fill pass is idempotent on the buffer. -/
theorem fillBuffer_idem (b : Nat → client_pixel_rgba_ts) (j : Nat) :
    fillBuffer (fillBuffer b) j = fillBuffer b j := by
  rw [fillBuffer_apply, fillBuffer_apply]
  by_cases hj : j < WINDOW_PIXELS_TOTAL_VIRTUAL <;>
    simp [hj, fillPixel_idem]

/--
Membership characterisation of the copy loop's stores: a store is
performed iff it is the store of some texel `(x, y)` of the virtual
resolution, at texture index `(texture_pitch / 4) * y + x`, of the
format-converted client pixel at client index
`WINDOW_WIDTH_VIRTUAL * y + x`.
-/
theorem mem_uploadWrites (mapRGB : Option Nat → Option Nat → Option Nat → Nat)
    (cb : Nat → client_pixel_rgba_ts) (texture_pitch : Nat) (w : TexWrite) :
    w ∈ uploadWrites mapRGB cb texture_pitch ↔
      ∃ texel_y texel_x, texel_y < WINDOW_HEIGHT_VIRTUAL ∧
        texel_x < WINDOW_WIDTH_VIRTUAL ∧
        w.index = (texture_pitch / 4) * texel_y + texel_x ∧
        w.value = mapRGB (cb (WINDOW_WIDTH_VIRTUAL * texel_y + texel_x)).red
          (cb (WINDOW_WIDTH_VIRTUAL * texel_y + texel_x)).green
          (cb (WINDOW_WIDTH_VIRTUAL * texel_y + texel_x)).blue := by
  simp only [uploadWrites, List.mem_flatMap, List.mem_map, List.mem_range]
  constructor
  · rintro ⟨y, hy, x, hx, rfl⟩
    exact ⟨y, x, hy, hx, rfl, rfl⟩
  · rintro ⟨y, x, hy, hx, hidx, hval⟩
    refine ⟨y, hy, x, hx, ?_⟩
    cases w
    simp only [TexWrite.mk.injEq]
    exact ⟨hidx.symm, hval.symm⟩

/- ------------------------------------------------------------------
   Claim C2
   ------------------------------------------------------------------ -/

/-- Two concrete pre-fill buffer contents, used to compare runs whose
`malloc` returned memory with different indeterminate contents. -/
def bufAllOnes : Nat → client_pixel_rgba_ts :=
  fun _ => { red := some 1, green := some 1, blue := some 1, alpha := some 1 }

def bufAllTwos : Nat → client_pixel_rgba_ts :=
  fun _ => { red := some 2, green := some 2, blue := some 2, alpha := some 2 }

/-- The fill leaves the pixel at client index 0 with only `red` assigned. -/
theorem fillBuffer_fresh_zero :
    fillBuffer (fun _ => freshMallocPixel) 0 =
      { red := some 0xFF, green := none, blue := none, alpha := none } := by
  rw [fillBuffer_apply]
  norm_num [WINDOW_PIXELS_TOTAL_VIRTUAL, WINDOW_WIDTH_VIRTUAL,
    WINDOW_HEIGHT_VIRTUAL, fillPixel, freshMallocPixel]

/--
C2: the claim states that the procedural fill assigns every color field
of every pixel of the freshly `malloc`ed buffer, so that the
texture-upload conversion never reads an unassigned field.  This is
false on the code: at client index 0 the fill assigns only `red`
(main.c line 182), leaving `green` and `blue` unassigned, and the copy
loop nevertheless reads them and passes them to `SDL_MapRGB`: the
upload performs the store of `mapRGB red=0xFF green=unassigned
blue=unassigned` at texture index 0.
-/
theorem C2_fill_misses_fields_read_by_upload :
    (fillBuffer (fun _ => freshMallocPixel) 0).red = some 0xFF ∧
    (fillBuffer (fun _ => freshMallocPixel) 0).green = none ∧
    (fillBuffer (fun _ => freshMallocPixel) 0).blue = none ∧
    ∀ (mapRGB : Option Nat → Option Nat → Option Nat → Nat) (texture_pitch : Nat),
      TexWrite.mk 0 (mapRGB (some 0xFF) none none) ∈
        uploadWrites mapRGB (fillBuffer (fun _ => freshMallocPixel))
          texture_pitch := by
  refine ⟨by rw [fillBuffer_fresh_zero], by rw [fillBuffer_fresh_zero],
    by rw [fillBuffer_fresh_zero], ?_⟩
  intro mapRGB texture_pitch
  rw [mem_uploadWrites]
  refine ⟨0, 0, ?_, ?_, by simp, by simp [fillBuffer_fresh_zero]⟩
  · norm_num [WINDOW_HEIGHT_VIRTUAL]
  · norm_num [WINDOW_WIDTH_VIRTUAL]

/- ------------------------------------------------------------------
   Claim C4
   ------------------------------------------------------------------ -/

/--
C4 counterexample: the post-fill buffer contents are not independent of
the pre-fill contents.  Two buffers whose indeterminate initial
contents differ still differ at client index 0 after the fill, because
the fill assigns only `red` there.
-/
theorem C4_fill_depends_on_prior_contents :
    fillBuffer bufAllOnes 0 ≠ fillBuffer bufAllTwos 0 := by
  rw [fillBuffer_apply, fillBuffer_apply]
  norm_num [WINDOW_PIXELS_TOTAL_VIRTUAL, WINDOW_WIDTH_VIRTUAL,
    WINDOW_HEIGHT_VIRTUAL, fillPixel, bufAllOnes, bufAllTwos]

/--
C4 amended: within one run the post-fill contents are identical across
iterations (a second fill changes nothing), and at every pixel index
other than the four special-cased ones (0, 159, 22880, 23039) the
post-fill contents are independent of the buffer contents before the
fill; at those four indices the fields the fill does not assign retain
their prior, initially indeterminate, values.
-/
theorem C4_fill_deterministic_except_corners
    (b b' : Nat → client_pixel_rgba_ts) (j : Nat) :
    fillBuffer (fillBuffer b) j = fillBuffer b j ∧
    (j < WINDOW_PIXELS_TOTAL_VIRTUAL → j ≠ 0 → j ≠ 159 → j ≠ 22880 →
      j ≠ 23039 → fillBuffer b j = fillBuffer b' j) := by
  refine ⟨fillBuffer_idem b j, fun hj h0 h1 h2 h3 => ?_⟩
  rw [fillBuffer_apply, fillBuffer_apply]
  simp [hj, fillPixel_default _ j h0 h1 h2 h3]

/-- Witness for `C4_fill_deterministic_except_corners` at index 5. -/
theorem C4_fill_deterministic_except_corners_witness :
    (5 < WINDOW_PIXELS_TOTAL_VIRTUAL ∧ (5 : Nat) ≠ 0 ∧ (5 : Nat) ≠ 159 ∧
      (5 : Nat) ≠ 22880 ∧ (5 : Nat) ≠ 23039) ∧
    fillBuffer (fillBuffer bufAllOnes) 5 = fillBuffer bufAllOnes 5 ∧
    fillBuffer bufAllOnes 5 = fillBuffer bufAllTwos 5 :=
  ⟨⟨by decide, by decide, by decide, by decide, by decide⟩,
    (C4_fill_deterministic_except_corners bufAllOnes bufAllTwos 5).1,
    (C4_fill_deterministic_except_corners bufAllOnes bufAllTwos 5).2
      (by decide) (by decide) (by decide) (by decide) (by decide)⟩

/- ------------------------------------------------------------------
   Facts about one render-loop iteration
   ------------------------------------------------------------------ -/

/--
The stores an iteration performs on texture memory: exactly the stores
of the copy loop, all through the `p_texture_pixels` pointer as left
by `SDL_LockTexture` (still NULL, i.e. `none`, when the lock failed).
-/
theorem writeTexture_mem_renderIteration
    (mapRGB : Option Nat → Option Nat → Option Nat → Nat)
    (input : IterInput) (s : IterState) (p : Option Nat) (w : TexWrite) :
    Act.writeTexture p w ∈ (renderIteration mapRGB input s).2 ↔
      p = (if input.lockResult = 0 then some input.lockPtr else none) ∧
      w ∈ uploadWrites mapRGB (fillBuffer s.clientBuffer)
        (if input.lockResult = 0 then input.lockPitch
          else input.pitchInitial) := by
  by_cases hl : input.lockResult = 0 <;>
    by_cases hc : input.clearResult = 0 <;>
    by_cases hk : input.copyResult = 0 <;>
    (simp [renderIteration, hl, hc, hk, List.mem_append, List.mem_map,
      and_comm]) <;>
    exact ⟨fun ⟨a, ha, h1, h2⟩ => ⟨h1 ▸ ha, h2.symm⟩,
      fun ⟨hw, hp⟩ => ⟨w, hw, rfl, hp.symm⟩⟩

/- ------------------------------------------------------------------
   Claim C1
   ------------------------------------------------------------------ -/

/--
C1: in a render-loop iteration in which `SDL_LockTexture` succeeds,
the upload routine stores, for every texel `(x, y)` of the virtual
resolution, the value `SDL_MapRGB(format, client[160*y+x].red,
client[160*y+x].green, client[160*y+x].blue)` (for the client buffer
as just filled) at texture pixel index `(pitch/4)*y + x`, through the
locked pixel pointer; and every store the iteration performs on the
texture is of exactly that form, so no other texture pixel index is
written.
-/
theorem C1_upload_pitch_and_format_aware
    (mapRGB : Option Nat → Option Nat → Option Nat → Nat)
    (input : IterInput) (s : IterState) (hlock : input.lockResult = 0) :
    (∀ texel_x texel_y, texel_x < WINDOW_WIDTH_VIRTUAL →
      texel_y < WINDOW_HEIGHT_VIRTUAL →
      Act.writeTexture (some input.lockPtr)
        (TexWrite.mk ((input.lockPitch / 4) * texel_y + texel_x)
          (mapRGB
            (fillBuffer s.clientBuffer
              (WINDOW_WIDTH_VIRTUAL * texel_y + texel_x)).red
            (fillBuffer s.clientBuffer
              (WINDOW_WIDTH_VIRTUAL * texel_y + texel_x)).green
            (fillBuffer s.clientBuffer
              (WINDOW_WIDTH_VIRTUAL * texel_y + texel_x)).blue))
        ∈ (renderIteration mapRGB input s).2) ∧
    (∀ (p : Option Nat) (w : TexWrite),
      Act.writeTexture p w ∈ (renderIteration mapRGB input s).2 →
      p = some input.lockPtr ∧
      ∃ texel_x texel_y, texel_x < WINDOW_WIDTH_VIRTUAL ∧
        texel_y < WINDOW_HEIGHT_VIRTUAL ∧
        w.index = (input.lockPitch / 4) * texel_y + texel_x ∧
        w.value = mapRGB
          (fillBuffer s.clientBuffer
            (WINDOW_WIDTH_VIRTUAL * texel_y + texel_x)).red
          (fillBuffer s.clientBuffer
            (WINDOW_WIDTH_VIRTUAL * texel_y + texel_x)).green
          (fillBuffer s.clientBuffer
            (WINDOW_WIDTH_VIRTUAL * texel_y + texel_x)).blue) := by
  constructor
  · intro x y hx hy
    rw [writeTexture_mem_renderIteration, if_pos hlock, if_pos hlock,
      mem_uploadWrites]
    exact ⟨rfl, y, x, hy, hx, rfl, rfl⟩
  · intro p w hw
    rw [writeTexture_mem_renderIteration, if_pos hlock, if_pos hlock,
      mem_uploadWrites] at hw
    obtain ⟨hp, y, x, hy, hx, hidx, hval⟩ := hw
    exact ⟨hp, x, y, hx, hy, hidx, hval⟩

/- Concrete instances used by the witnesses below. -/

def constRGB : Option Nat → Option Nat → Option Nat → Nat := fun _ _ _ => 0

/-- An iteration input whose `SDL_LockTexture` succeeds with pitch 640. -/
def iterLockOk : IterInput :=
  { events := [], lockResult := 0, lockPtr := 5, lockPitch := 640,
    pitchInitial := 0, clearResult := 0, copyResult := 0 }

def stateStart : IterState := ⟨false, bufAllOnes⟩

/-- Witness for `C1_upload_pitch_and_format_aware`. -/
theorem C1_upload_pitch_and_format_aware_witness :
    iterLockOk.lockResult = 0 ∧
    ((∀ texel_x texel_y, texel_x < WINDOW_WIDTH_VIRTUAL →
      texel_y < WINDOW_HEIGHT_VIRTUAL →
      Act.writeTexture (some iterLockOk.lockPtr)
        (TexWrite.mk ((iterLockOk.lockPitch / 4) * texel_y + texel_x)
          (constRGB
            (fillBuffer stateStart.clientBuffer
              (WINDOW_WIDTH_VIRTUAL * texel_y + texel_x)).red
            (fillBuffer stateStart.clientBuffer
              (WINDOW_WIDTH_VIRTUAL * texel_y + texel_x)).green
            (fillBuffer stateStart.clientBuffer
              (WINDOW_WIDTH_VIRTUAL * texel_y + texel_x)).blue))
        ∈ (renderIteration constRGB iterLockOk stateStart).2) ∧
    (∀ (p : Option Nat) (w : TexWrite),
      Act.writeTexture p w ∈ (renderIteration constRGB iterLockOk stateStart).2 →
      p = some iterLockOk.lockPtr ∧
      ∃ texel_x texel_y, texel_x < WINDOW_WIDTH_VIRTUAL ∧
        texel_y < WINDOW_HEIGHT_VIRTUAL ∧
        w.index = (iterLockOk.lockPitch / 4) * texel_y + texel_x ∧
        w.value = constRGB
          (fillBuffer stateStart.clientBuffer
            (WINDOW_WIDTH_VIRTUAL * texel_y + texel_x)).red
          (fillBuffer stateStart.clientBuffer
            (WINDOW_WIDTH_VIRTUAL * texel_y + texel_x)).green
          (fillBuffer stateStart.clientBuffer
            (WINDOW_WIDTH_VIRTUAL * texel_y + texel_x)).blue)) :=
  ⟨rfl, C1_upload_pitch_and_format_aware constRGB iterLockOk stateStart rfl⟩

/-- Explicit shape of one iteration's trace. -/
theorem renderIteration_snd (mapRGB : Option Nat → Option Nat → Option Nat → Nat)
    (input : IterInput) (s : IterState) :
    (renderIteration mapRGB input s).2 =
      input.events.map Act.pollEvent ++
        ([Act.fillClientBuffer, Act.lockTexture input.lockResult] ++
          (if input.lockResult = 0 then []
            else [Act.logError "SDL2 texture could not be locked"]) ++
          (uploadWrites mapRGB (fillBuffer s.clientBuffer)
              (if input.lockResult = 0 then input.lockPitch
                else input.pitchInitial)).map
            (Act.writeTexture
              (if input.lockResult = 0 then some input.lockPtr else none)) ++
          [Act.unlockTexture, Act.renderClear input.clearResult] ++
          (if input.clearResult = 0 then []
            else [Act.logError "SDL2 Render clear failed"]) ++
          [Act.renderCopy input.copyResult] ++
          (if input.copyResult = 0 then []
            else [Act.logError "SDL2 Render copy failed"]) ++
          [Act.renderPresent]) := by
  simp [renderIteration, List.append_assoc]

/-- One unfolding of the `while (!window_close_requested)` loop. -/
theorem runLoop_eq (mapRGB : Option Nat → Option Nat → Option Nat → Nat)
    (inputs : List IterInput) (s : IterState) :
    runLoop mapRGB inputs s =
      if s.window_close_requested then (some s, [])
      else
        match inputs with
        | [] => (none, [])
        | input :: rest =>
          let step := renderIteration mapRGB input s
          let next := runLoop mapRGB rest step.1
          (next.1, step.2 ++ next.2) := by
  cases inputs <;> rfl



/- ------------------------------------------------------------------
   Claims C5 and C8
   ------------------------------------------------------------------ -/

/--
The post-poll part of one iteration's trace, with `ws` the (mapped)
copy-loop stores: fill, lock (with its log on failure), the stores,
unlock, clear (with its log on failure), copy (with its log on
failure), present.
-/
def restTrace (r c k : Int) (ws : List Act) : List Act :=
  [Act.fillClientBuffer, Act.lockTexture r] ++
    (if r = 0 then []
      else [Act.logError "SDL2 texture could not be locked"]) ++
    ws ++
    [Act.unlockTexture, Act.renderClear c] ++
    (if c = 0 then []
      else [Act.logError "SDL2 Render clear failed"]) ++
    [Act.renderCopy k] ++
    (if k = 0 then []
      else [Act.logError "SDL2 Render copy failed"]) ++
    [Act.renderPresent]

/-- One iteration's trace is the polls followed by the render phase. -/
theorem renderIteration_snd_rest
    (mapRGB : Option Nat → Option Nat → Option Nat → Nat)
    (input : IterInput) (s : IterState) :
    (renderIteration mapRGB input s).2 =
      input.events.map Act.pollEvent ++
        restTrace input.lockResult input.clearResult input.copyResult
          ((uploadWrites mapRGB (fillBuffer s.clientBuffer)
              (if input.lockResult = 0 then input.lockPitch
                else input.pitchInitial)).map
            (Act.writeTexture
              (if input.lockResult = 0 then some input.lockPtr else none))) := by
  rw [renderIteration_snd]
  rfl

/- Abstract facts about the render phase of the trace. -/

theorem pollEvent_not_mem_restTrace (r c k : Int) (ws : List Act)
    (hws : ∀ e, Act.pollEvent e ∉ ws) (e : Event) :
    Act.pollEvent e ∉ restTrace r c k ws := by
  have h := hws e
  unfold restTrace
  split_ifs <;> simp_all

theorem fill_mem_restTrace (r c k : Int) (ws : List Act) :
    Act.fillClientBuffer ∈ restTrace r c k ws := by
  unfold restTrace
  split_ifs <;> simp

theorem lock_mem_restTrace (r c k : Int) (ws : List Act) :
    Act.lockTexture r ∈ restTrace r c k ws := by
  unfold restTrace
  split_ifs <;> simp

theorem unlock_mem_restTrace (r c k : Int) (ws : List Act) :
    Act.unlockTexture ∈ restTrace r c k ws := by
  unfold restTrace
  split_ifs <;> simp

theorem clear_mem_restTrace (r c k : Int) (ws : List Act) :
    Act.renderClear c ∈ restTrace r c k ws := by
  unfold restTrace
  split_ifs <;> simp

theorem copy_mem_restTrace (r c k : Int) (ws : List Act) :
    Act.renderCopy k ∈ restTrace r c k ws := by
  unfold restTrace
  split_ifs <;> simp

theorem present_mem_restTrace (r c k : Int) (ws : List Act) :
    Act.renderPresent ∈ restTrace r c k ws := by
  unfold restTrace
  split_ifs <;> simp

theorem logLock_mem_restTrace (r c k : Int) (ws : List Act) (hr : r ≠ 0) :
    Act.logError "SDL2 texture could not be locked" ∈ restTrace r c k ws := by
  unfold restTrace
  rw [if_neg hr]
  simp

theorem logClear_mem_restTrace (r c k : Int) (ws : List Act) (hc : c ≠ 0) :
    Act.logError "SDL2 Render clear failed" ∈ restTrace r c k ws := by
  unfold restTrace
  rw [if_neg hc]
  split_ifs <;> simp

theorem logCopy_mem_restTrace (r c k : Int) (ws : List Act) (hk : k ≠ 0) :
    Act.logError "SDL2 Render copy failed" ∈ restTrace r c k ws := by
  unfold restTrace
  rw [if_neg hk]
  split_ifs <;> simp

/--
C5: each iteration is strictly event-then-render: its trace starts
with the poll of every pending event, in order and to exhaustion, and
the remainder of the iteration (fill, lock, copy, unlock, clear, copy,
present) contains no further poll.
-/
theorem C5_events_polled_before_render
    (mapRGB : Option Nat → Option Nat → Option Nat → Nat)
    (input : IterInput) (s : IterState) :
    ∃ rest, (renderIteration mapRGB input s).2 =
        input.events.map Act.pollEvent ++ rest ∧
      (∀ e, Act.pollEvent e ∉ rest) ∧
      Act.fillClientBuffer ∈ rest ∧
      Act.lockTexture input.lockResult ∈ rest ∧
      Act.unlockTexture ∈ rest ∧
      Act.renderClear input.clearResult ∈ rest ∧
      Act.renderCopy input.copyResult ∈ rest ∧
      Act.renderPresent ∈ rest :=
  ⟨_, renderIteration_snd_rest mapRGB input s,
    pollEvent_not_mem_restTrace _ _ _ _ (fun e => by simp),
    fill_mem_restTrace _ _ _ _,
    lock_mem_restTrace _ _ _ _,
    unlock_mem_restTrace _ _ _ _,
    clear_mem_restTrace _ _ _ _,
    copy_mem_restTrace _ _ _ _,
    present_mem_restTrace _ _ _ _⟩

/--
C8: failures inside the render loop are logged and nothing else: a
failing `SDL_LockTexture` (and failing `SDL_RenderClear` /
`SDL_RenderCopy`) leaves the successor state exactly as on success,
the iteration still runs to `SDL_RenderPresent`, the loop's exit
behaviour and hence the exit code are unchanged, and the copy loop
still executes all its stores through the `p_texture_pixels` pointer
that is still NULL (`none`).
-/
theorem C8_render_failures_nonfatal
    (mapRGB : Option Nat → Option Nat → Option Nat → Nat)
    (input : IterInput) (s : IterState) (hlock : input.lockResult ≠ 0) :
    (renderIteration mapRGB input s).1 =
      ⟨processEvents s.window_close_requested input.events,
        fillBuffer s.clientBuffer⟩ ∧
    Act.logError "SDL2 texture could not be locked"
      ∈ (renderIteration mapRGB input s).2 ∧
    Act.renderPresent ∈ (renderIteration mapRGB input s).2 ∧
    (∀ (p : Option Nat) (w : TexWrite),
      Act.writeTexture p w ∈ (renderIteration mapRGB input s).2 → p = none) ∧
    (∃ w, Act.writeTexture none w ∈ (renderIteration mapRGB input s).2) ∧
    (input.clearResult ≠ 0 →
      Act.logError "SDL2 Render clear failed"
        ∈ (renderIteration mapRGB input s).2) ∧
    (input.copyResult ≠ 0 →
      Act.logError "SDL2 Render copy failed"
        ∈ (renderIteration mapRGB input s).2) ∧
    (∀ rest, (runLoop mapRGB (input :: rest) s).1 =
      (runLoop mapRGB
        ({ input with lockResult := 0, clearResult := 0, copyResult := 0 }
          :: rest) s).1) := by
  refine ⟨rfl, ?_, ?_, ?_, ?_, ?_, ?_, ?_⟩
  · rw [renderIteration_snd_rest]
    exact List.mem_append_right _ (logLock_mem_restTrace _ _ _ _ hlock)
  · rw [renderIteration_snd_rest]
    exact List.mem_append_right _ (present_mem_restTrace _ _ _ _)
  · intro p w h
    exact ((writeTexture_mem_renderIteration mapRGB input s p w).mp h).1.trans
      (if_neg hlock)
  · refine ⟨TexWrite.mk ((input.pitchInitial / 4) * 0 + 0)
      (mapRGB
        (fillBuffer s.clientBuffer (WINDOW_WIDTH_VIRTUAL * 0 + 0)).red
        (fillBuffer s.clientBuffer (WINDOW_WIDTH_VIRTUAL * 0 + 0)).green
        (fillBuffer s.clientBuffer (WINDOW_WIDTH_VIRTUAL * 0 + 0)).blue), ?_⟩
    rw [writeTexture_mem_renderIteration, if_neg hlock, if_neg hlock,
      mem_uploadWrites]
    refine ⟨rfl, 0, 0, ?_, ?_, rfl, rfl⟩
    · norm_num [WINDOW_HEIGHT_VIRTUAL]
    · norm_num [WINDOW_WIDTH_VIRTUAL]
  · intro hc
    rw [renderIteration_snd_rest]
    exact List.mem_append_right _ (logClear_mem_restTrace _ _ _ _ hc)
  · intro hk
    rw [renderIteration_snd_rest]
    exact List.mem_append_right _ (logCopy_mem_restTrace _ _ _ _ hk)
  · intro rest
    rw [runLoop_eq, runLoop_eq]
    by_cases hf : s.window_close_requested
    · simp [hf]
    · simp only [hf, if_false, Bool.false_eq_true]
      rfl

/-- An iteration input whose `SDL_LockTexture` (and clear/copy) fail. -/
def iterLockFail : IterInput :=
  { events := [], lockResult := 1, lockPtr := 0, lockPitch := 0,
    pitchInitial := 640, clearResult := 1, copyResult := 1 }

/-- Witness for `C8_render_failures_nonfatal`. -/
theorem C8_render_failures_nonfatal_witness :
    iterLockFail.lockResult ≠ 0 ∧
    ((renderIteration constRGB iterLockFail stateStart).1 =
      ⟨processEvents stateStart.window_close_requested iterLockFail.events,
        fillBuffer stateStart.clientBuffer⟩ ∧
    Act.logError "SDL2 texture could not be locked"
      ∈ (renderIteration constRGB iterLockFail stateStart).2 ∧
    Act.renderPresent ∈ (renderIteration constRGB iterLockFail stateStart).2 ∧
    (∀ (p : Option Nat) (w : TexWrite),
      Act.writeTexture p w ∈ (renderIteration constRGB iterLockFail stateStart).2 →
        p = none) ∧
    (∃ w, Act.writeTexture none w
      ∈ (renderIteration constRGB iterLockFail stateStart).2) ∧
    (iterLockFail.clearResult ≠ 0 →
      Act.logError "SDL2 Render clear failed"
        ∈ (renderIteration constRGB iterLockFail stateStart).2) ∧
    (iterLockFail.copyResult ≠ 0 →
      Act.logError "SDL2 Render copy failed"
        ∈ (renderIteration constRGB iterLockFail stateStart).2) ∧
    (∀ rest, (runLoop constRGB (iterLockFail :: rest) stateStart).1 =
      (runLoop constRGB
        ({ iterLockFail with
            lockResult := 0
            clearResult := 0
            copyResult := 0 } :: rest) stateStart).1)) :=
  ⟨by decide,
    C8_render_failures_nonfatal constRGB iterLockFail stateStart (by decide)⟩


/- ------------------------------------------------------------------
   Claim C10
   ------------------------------------------------------------------ -/

/-- Handling one event sets the close flag iff it was already set or
the event is `SDL_QUIT` or an Escape key-down. -/
theorem processEvent_true_iff (c : Bool) (e : Event) :
    processEvent c e = true ↔
      c = true ∨ e = Event.quit ∨ e = Event.keydown SDLK_ESCAPE := by
  cases e with
  | quit => simp [processEvent]
  | keydown sym =>
      by_cases h : sym = SDLK_ESCAPE <;> simp [processEvent, h]
  | other ty => simp [processEvent]

/-- The inner poll loop sets the close flag iff it was already set or
some pending event is `SDL_QUIT` or an Escape key-down. -/
theorem processEvents_true_iff (c : Bool) (events : List Event) :
    processEvents c events = true ↔
      c = true ∨ ∃ e ∈ events, e = Event.quit ∨ e = Event.keydown SDLK_ESCAPE := by
  induction events generalizing c with
  | nil => simp [processEvents]
  | cons e es ih =>
      rw [processEvents, List.foldl_cons, ← processEvents]
      rw [ih, processEvent_true_iff]
      constructor
      · rintro ((h | h | h) | ⟨e', he', h⟩)
        · exact Or.inl h
        · exact Or.inr ⟨e, List.mem_cons_self e es, Or.inl h⟩
        · exact Or.inr ⟨e, List.mem_cons_self e es, Or.inr h⟩
        · exact Or.inr ⟨e', List.mem_cons_of_mem e he', h⟩
      · rintro (h | ⟨e', he', h⟩)
        · exact Or.inl (Or.inl h)
        · rcases List.mem_cons.mp he' with rfl | he''
          · exact Or.inl (Or.inr h)
          · exact Or.inr ⟨e', he'', h⟩

/-- The loop hands back control only with the close flag set. -/
theorem runLoop_some_close (mapRGB : Option Nat → Option Nat → Option Nat → Nat)
    (inputs : List IterInput) (s s' : IterState) (tr : List Act)
    (h : runLoop mapRGB inputs s = (some s', tr)) :
    s'.window_close_requested = true := by
  induction inputs generalizing s tr with
  | nil =>
      rw [runLoop_eq] at h
      by_cases hf : s.window_close_requested
      · rw [if_pos hf] at h
        cases (Prod.mk.injEq _ _ _ _ ▸ h).1
        exact hf
      · rw [if_neg hf] at h
        exact absurd (Prod.mk.injEq _ _ _ _ ▸ h).1 (by simp)
  | cons i rest ih =>
      rw [runLoop_eq] at h
      by_cases hf : s.window_close_requested
      · rw [if_pos hf] at h
        cases (Prod.mk.injEq _ _ _ _ ▸ h).1
        exact hf
      · rw [if_neg hf] at h
        obtain ⟨r2, tr2, hr⟩ :
            ∃ r2 tr2, runLoop mapRGB rest (renderIteration mapRGB i s).1 =
              (r2, tr2) := ⟨_, _, rfl⟩
        simp only [hr] at h
        have h1 : r2 = some s' := (Prod.mk.injEq _ _ _ _ ▸ h).1
        rw [h1] at hr
        exact ih _ _ hr

/--
C10: the render loop terminates only after an `SDL_QUIT` event or an
Escape key-down: handling an event sets `window_close_requested` iff
it was already set or the event is one of those two shapes; any other
event leaves the flag unchanged; the loop exits exactly when the flag
is set at the top of an iteration (the loop condition is its
negation); and from a fresh start the loop can only have exited
because some iteration's pending events contained `SDL_QUIT` or an
Escape key-down.
-/
theorem C10_close_only_quit_or_escape
    (mapRGB : Option Nat → Option Nat → Option Nat → Nat) :
    (∀ c e, processEvent c e = true ↔
      (c = true ∨ e = Event.quit ∨ e = Event.keydown SDLK_ESCAPE)) ∧
    (∀ c e, e ≠ Event.quit → e ≠ Event.keydown SDLK_ESCAPE →
      processEvent c e = c) ∧
    (∀ inputs (s s' : IterState) tr,
      runLoop mapRGB inputs s = (some s', tr) →
      s'.window_close_requested = true) ∧
    (∀ inputs (s : IterState), s.window_close_requested = true →
      runLoop mapRGB inputs s = (some s, [])) ∧
    (∀ inputs (b : Nat → client_pixel_rgba_ts) s' tr,
      runLoop mapRGB inputs ⟨false, b⟩ = (some s', tr) →
      ∃ input ∈ inputs, ∃ e ∈ input.events,
        e = Event.quit ∨ e = Event.keydown SDLK_ESCAPE) := by
  refine ⟨processEvent_true_iff, ?_, ?_, ?_, ?_⟩
  · intro c e hq hk
    cases e with
    | quit => exact absurd rfl hq
    | keydown sym =>
        have hsym : sym ≠ SDLK_ESCAPE := fun h => hk (h ▸ rfl)
        simp [processEvent, hsym]
    | other ty => rfl
  · exact fun inputs s s' tr h => runLoop_some_close mapRGB inputs s s' tr h
  · intro inputs s hf
    rw [runLoop_eq, if_pos hf]
  · intro inputs
    induction inputs with
    | nil =>
        intro b s' tr h
        rw [runLoop_eq] at h
        exact absurd (Prod.mk.injEq _ _ _ _ ▸ h).1 (by simp)
    | cons i rest ih =>
        intro b s' tr h
        rw [runLoop_eq] at h
        simp only [if_neg (by exact Bool.false_ne_true)] at h
        obtain ⟨r2, tr2, hr⟩ :
            ∃ r2 tr2, runLoop mapRGB rest
              (renderIteration mapRGB i ⟨false, b⟩).1 = (r2, tr2) := ⟨_, _, rfl⟩
        simp only [hr] at h
        have h1 : r2 = some s' := (Prod.mk.injEq _ _ _ _ ▸ h).1
        rw [h1] at hr
        by_cases hquit : processEvents false i.events = true
        · rcases (processEvents_true_iff false i.events).mp hquit with hc | hev
          · exact absurd hc (by simp)
          · exact ⟨i, List.mem_cons_self i rest, hev⟩
        · have hflag : processEvents false i.events = false :=
            Bool.eq_false_iff.mpr hquit
          have hs1 : (renderIteration mapRGB i ⟨false, b⟩).1 =
              ⟨false, fillBuffer b⟩ := by
            show (⟨processEvents false i.events, fillBuffer b⟩ : IterState) = _
            rw [hflag]
          rw [hs1] at hr
          obtain ⟨inp, hin, hev⟩ := ih (fillBuffer b) s' tr2 hr
          exact ⟨inp, List.mem_cons_of_mem i hin, hev⟩

/- ------------------------------------------------------------------
   Claim C7
   ------------------------------------------------------------------ -/

/--
C7: the exit code is explicit and two-valued: 0 exactly when setup
succeeded and the render loop was entered and exited via a close
request, `OS_FAILURE_RETURN_CODE` (-1) exactly when some setup step
failed, and nothing else (within the modelled horizon the loop may
also still be running, in which case there is no exit).
-/
theorem C7_exit_codes (env : ProgramEnv) :
    ((runMain env).exit = some 0 ↔
      (∃ w r t f buf fmt calls,
        setup env.setupEnv = (SetupOutcome.ok w r t f buf fmt, calls)) ∧
      ∃ s' tr, runLoop env.mapRGB env.iterations ⟨false, env.initialBuffer⟩ =
          (some s', tr) ∧ s'.window_close_requested = true) ∧
    ((runMain env).exit = some OS_FAILURE_RETURN_CODE ↔
      ∃ msg args calls,
        setup env.setupEnv = (SetupOutcome.fail msg args, calls)) ∧
    (∀ code, (runMain env).exit = some code →
      code = 0 ∨ code = OS_FAILURE_RETURN_CODE) := by
  obtain ⟨⟨out, calls⟩, hsetup⟩ : ∃ p, setup env.setupEnv = p := ⟨_, rfl⟩
  cases out with
  | fail msg args =>
      have hexit : (runMain env).exit = some OS_FAILURE_RETURN_CODE := by
        simp [runMain, hsetup]
      refine ⟨?_, ?_, ?_⟩
      · rw [hexit]
        constructor
        · intro h
          rw [OS_FAILURE_RETURN_CODE] at h
          exact absurd h (by decide)
        · rintro ⟨⟨w, r, t, f, buf, fmt, calls', hok⟩, _⟩
          rw [hsetup] at hok
          exact absurd hok (by simp)
      · rw [hexit]
        exact ⟨fun _ => ⟨msg, args, calls, hsetup⟩, fun _ => rfl⟩
      · intro code hc
        rw [hexit] at hc
        exact Or.inr (Option.some.inj hc).symm
  | ok w r t f buf fmt =>
      obtain ⟨⟨r0, tr⟩, hloop⟩ :
          ∃ p, runLoop env.mapRGB env.iterations ⟨false, env.initialBuffer⟩ = p :=
        ⟨_, rfl⟩
      cases r0 with
      | none =>
          have hexit : (runMain env).exit = none := by
            simp [runMain, hsetup, hloop]
          refine ⟨?_, ?_, ?_⟩
          · rw [hexit]
            constructor
            · intro h
              exact absurd h (by simp)
            · rintro ⟨_, s', tr', hl', _⟩
              rw [hloop] at hl'
              exact absurd ((Prod.mk.injEq _ _ _ _).mp hl').1 (by simp)
          · rw [hexit]
            constructor
            · intro h
              exact absurd h (by simp)
            · rintro ⟨msg, args, calls', hfail⟩
              rw [hsetup] at hfail
              exact absurd hfail (by simp)
          · intro code hc
            exact absurd (hexit ▸ hc) (by simp)
      | some s' =>
          have hexit : (runMain env).exit = some 0 := by
            simp [runMain, hsetup, hloop]
          refine ⟨?_, ?_, ?_⟩
          · rw [hexit]
            refine ⟨fun _ => ⟨⟨w, r, t, f, buf, fmt, calls, hsetup⟩,
              s', tr, hloop, ?_⟩, fun _ => rfl⟩
            exact runLoop_some_close env.mapRGB env.iterations
              ⟨false, env.initialBuffer⟩ s' tr hloop
          · rw [hexit]
            constructor
            · intro h
              rw [OS_FAILURE_RETURN_CODE] at h
              exact absurd h (by decide)
            · rintro ⟨msg, args, calls', hfail⟩
              rw [hsetup] at hfail
              exact absurd hfail (by simp)
          · intro code hc
            rw [hexit] at hc
            exact Or.inl (Option.some.inj hc).symm

/- ------------------------------------------------------------------
   Claim C3
   ------------------------------------------------------------------ -/

/-- The nine pre-loop setup steps, in program order. -/
inductive SetupStep where
  | init
  | window
  | renderer
  | texture
  | query
  | alloc
  | logical
  | draw
  | malloc
deriving DecidableEq, Repr

/--
`stepFailsFirst env step` says that `step` is the first setup step to
fail in `env`: every earlier step succeeds and `step` itself fails.
-/
def stepFailsFirst (env : SetupEnv) : SetupStep → Prop
  | SetupStep.init => env.initResult ≠ 0
  | SetupStep.window => env.initResult = 0 ∧ env.windowResult = none
  | SetupStep.renderer => env.initResult = 0 ∧ env.windowResult.isSome ∧
      env.rendererResult = none
  | SetupStep.texture => env.initResult = 0 ∧ env.windowResult.isSome ∧
      env.rendererResult.isSome ∧ env.textureResult = none
  | SetupStep.query => env.initResult = 0 ∧ env.windowResult.isSome ∧
      env.rendererResult.isSome ∧ env.textureResult.isSome ∧
      env.queryResult ≠ 0
  | SetupStep.alloc => env.initResult = 0 ∧ env.windowResult.isSome ∧
      env.rendererResult.isSome ∧ env.textureResult.isSome ∧
      env.queryResult = 0 ∧ env.allocFormatResult = none
  | SetupStep.logical => env.initResult = 0 ∧ env.windowResult.isSome ∧
      env.rendererResult.isSome ∧ env.textureResult.isSome ∧
      env.queryResult = 0 ∧ env.allocFormatResult.isSome ∧
      env.logicalSizeResult ≠ 0
  | SetupStep.draw => env.initResult = 0 ∧ env.windowResult.isSome ∧
      env.rendererResult.isSome ∧ env.textureResult.isSome ∧
      env.queryResult = 0 ∧ env.allocFormatResult.isSome ∧
      env.logicalSizeResult = 0 ∧ env.drawColorResult ≠ 0
  | SetupStep.malloc => env.initResult = 0 ∧ env.windowResult.isSome ∧
      env.rendererResult.isSome ∧ env.textureResult.isSome ∧
      env.queryResult = 0 ∧ env.allocFormatResult.isSome ∧
      env.logicalSizeResult = 0 ∧ env.drawColorResult = 0 ∧
      env.mallocResult = none

/--
The resources created before `step` fails, in `cleanup`'s parameter
order `(window, renderer, texture, pixel format)` with NULL for the
rest — the claim's "resources created so far".
-/
def cleanupArgsAt (env : SetupEnv) : SetupStep → CleanupArgs
  | SetupStep.init => (none, none, none, none)
  | SetupStep.window => (none, none, none, none)
  | SetupStep.renderer => (env.windowResult, none, none, none)
  | SetupStep.texture => (env.windowResult, env.rendererResult, none, none)
  | SetupStep.query =>
      (env.windowResult, env.rendererResult, env.textureResult, none)
  | SetupStep.alloc =>
      (env.windowResult, env.rendererResult, env.textureResult, none)
  | SetupStep.logical =>
      (env.windowResult, env.rendererResult, env.textureResult,
        env.allocFormatResult)
  | SetupStep.draw =>
      (env.windowResult, env.rendererResult, env.textureResult,
        env.allocFormatResult)
  | SetupStep.malloc =>
      (env.windowResult, env.rendererResult, env.textureResult,
        env.allocFormatResult)

/--
The calls made up to and including the failing step — each attempted
exactly once, nothing after it: the claim's "no retry and no other
recovery action".
-/
def callsUpTo (env : SetupEnv) : SetupStep → List SetupCall
  | SetupStep.init => [SetupCall.sdlInit]
  | SetupStep.window => [SetupCall.sdlInit,
      SetupCall.createWindow WINDOW_TITLE WINDOW_WIDTH WINDOW_HEIGHT]
  | SetupStep.renderer => [SetupCall.sdlInit,
      SetupCall.createWindow WINDOW_TITLE WINDOW_WIDTH WINDOW_HEIGHT,
      SetupCall.createRenderer]
  | SetupStep.texture => [SetupCall.sdlInit,
      SetupCall.createWindow WINDOW_TITLE WINDOW_WIDTH WINDOW_HEIGHT,
      SetupCall.createRenderer,
      SetupCall.createTexture SDL_PIXELFORMAT_RGBA8888
        SDL_TEXTUREACCESS_STREAMING WINDOW_WIDTH_VIRTUAL WINDOW_HEIGHT_VIRTUAL]
  | SetupStep.query => [SetupCall.sdlInit,
      SetupCall.createWindow WINDOW_TITLE WINDOW_WIDTH WINDOW_HEIGHT,
      SetupCall.createRenderer,
      SetupCall.createTexture SDL_PIXELFORMAT_RGBA8888
        SDL_TEXTUREACCESS_STREAMING WINDOW_WIDTH_VIRTUAL WINDOW_HEIGHT_VIRTUAL,
      SetupCall.queryTexture]
  | SetupStep.alloc => [SetupCall.sdlInit,
      SetupCall.createWindow WINDOW_TITLE WINDOW_WIDTH WINDOW_HEIGHT,
      SetupCall.createRenderer,
      SetupCall.createTexture SDL_PIXELFORMAT_RGBA8888
        SDL_TEXTUREACCESS_STREAMING WINDOW_WIDTH_VIRTUAL WINDOW_HEIGHT_VIRTUAL,
      SetupCall.queryTexture, SetupCall.allocFormat env.queriedFormat]
  | SetupStep.logical => [SetupCall.sdlInit,
      SetupCall.createWindow WINDOW_TITLE WINDOW_WIDTH WINDOW_HEIGHT,
      SetupCall.createRenderer,
      SetupCall.createTexture SDL_PIXELFORMAT_RGBA8888
        SDL_TEXTUREACCESS_STREAMING WINDOW_WIDTH_VIRTUAL WINDOW_HEIGHT_VIRTUAL,
      SetupCall.queryTexture, SetupCall.allocFormat env.queriedFormat,
      SetupCall.setLogicalSize WINDOW_WIDTH_VIRTUAL WINDOW_HEIGHT_VIRTUAL]
  | SetupStep.draw => [SetupCall.sdlInit,
      SetupCall.createWindow WINDOW_TITLE WINDOW_WIDTH WINDOW_HEIGHT,
      SetupCall.createRenderer,
      SetupCall.createTexture SDL_PIXELFORMAT_RGBA8888
        SDL_TEXTUREACCESS_STREAMING WINDOW_WIDTH_VIRTUAL WINDOW_HEIGHT_VIRTUAL,
      SetupCall.queryTexture, SetupCall.allocFormat env.queriedFormat,
      SetupCall.setLogicalSize WINDOW_WIDTH_VIRTUAL WINDOW_HEIGHT_VIRTUAL,
      SetupCall.setRenderDrawColor 0x32 0x96 0xFF 0xFF]
  | SetupStep.malloc => [SetupCall.sdlInit,
      SetupCall.createWindow WINDOW_TITLE WINDOW_WIDTH WINDOW_HEIGHT,
      SetupCall.createRenderer,
      SetupCall.createTexture SDL_PIXELFORMAT_RGBA8888
        SDL_TEXTUREACCESS_STREAMING WINDOW_WIDTH_VIRTUAL WINDOW_HEIGHT_VIRTUAL,
      SetupCall.queryTexture, SetupCall.allocFormat env.queriedFormat,
      SetupCall.setLogicalSize WINDOW_WIDTH_VIRTUAL WINDOW_HEIGHT_VIRTUAL,
      SetupCall.setRenderDrawColor 0x32 0x96 0xFF 0xFF,
      SetupCall.mallocBuffer (4 * WINDOW_PIXELS_TOTAL_VIRTUAL)]


/--
If `step` is the first setup step to fail, `setup` stops there with
that step's log message, the cleanup arguments holding exactly the
resources created so far, and the calls made so far.
-/
theorem setup_fail_eq (env : SetupEnv) (step : SetupStep)
    (hfail : stepFailsFirst env step) :
    ∃ msg, setup env =
      (SetupOutcome.fail msg (cleanupArgsAt env step), callsUpTo env step) := by
  obtain ⟨ir, wr, rr, tr, qr, qf, qw, qh, ar, lr, dr, mr⟩ := env
  cases step with
  | init =>
      have h1 : ir ≠ 0 := hfail
      refine ⟨"Required SDL2 subsystems could not be initialized", ?_⟩
      simp only [setup, reduceIte, cleanupArgsAt, callsUpTo]
      simp [h1]
  | window =>
      obtain ⟨h1, h2⟩ := hfail
      simp only at h1 h2
      subst h1
      subst h2
      refine ⟨"SDL2 window could not be created", ?_⟩
      simp only [setup, reduceIte, cleanupArgsAt, callsUpTo]
      simp
  | renderer =>
      obtain ⟨h1, h2, h3⟩ := hfail
      obtain ⟨w, hw⟩ := Option.isSome_iff_exists.mp h2
      simp only at h1 hw h3
      subst h1
      subst hw
      subst h3
      refine ⟨"SDL2 renderer could not be created", ?_⟩
      simp only [setup, reduceIte, cleanupArgsAt, callsUpTo]
      simp
  | texture =>
      obtain ⟨h1, h2, h3, h4⟩ := hfail
      obtain ⟨w, hw⟩ := Option.isSome_iff_exists.mp h2
      obtain ⟨r, hr⟩ := Option.isSome_iff_exists.mp h3
      simp only at h1 hw hr h4
      subst h1
      subst hw
      subst hr
      subst h4
      refine ⟨"SDL2 texture could not be created", ?_⟩
      simp only [setup, reduceIte, cleanupArgsAt, callsUpTo]
      simp
  | query =>
      obtain ⟨h1, h2, h3, h4, h5⟩ := hfail
      obtain ⟨w, hw⟩ := Option.isSome_iff_exists.mp h2
      obtain ⟨r, hr⟩ := Option.isSome_iff_exists.mp h3
      obtain ⟨t, ht⟩ := Option.isSome_iff_exists.mp h4
      simp only at h1 hw hr ht h5
      subst h1
      subst hw
      subst hr
      subst ht
      refine ⟨"SDL2 texture attributes could not be queried", ?_⟩
      simp only [setup, reduceIte, cleanupArgsAt, callsUpTo, ne_eq, h5,
        not_false_eq_true, if_true]
      simp
  | alloc =>
      obtain ⟨h1, h2, h3, h4, h5, h6⟩ := hfail
      obtain ⟨w, hw⟩ := Option.isSome_iff_exists.mp h2
      obtain ⟨r, hr⟩ := Option.isSome_iff_exists.mp h3
      obtain ⟨t, ht⟩ := Option.isSome_iff_exists.mp h4
      simp only at h1 hw hr ht h5 h6
      subst h1
      subst hw
      subst hr
      subst ht
      subst h5
      subst h6
      refine ⟨"SDL2 texture pixel format could not be determined", ?_⟩
      simp only [setup, reduceIte, cleanupArgsAt, callsUpTo]
      simp
  | logical =>
      obtain ⟨h1, h2, h3, h4, h5, h6, h7⟩ := hfail
      obtain ⟨w, hw⟩ := Option.isSome_iff_exists.mp h2
      obtain ⟨r, hr⟩ := Option.isSome_iff_exists.mp h3
      obtain ⟨t, ht⟩ := Option.isSome_iff_exists.mp h4
      obtain ⟨f, hf⟩ := Option.isSome_iff_exists.mp h6
      simp only at h1 hw hr ht h5 hf h7
      subst h1
      subst hw
      subst hr
      subst ht
      subst h5
      subst hf
      refine ⟨"SDL2 logical render size could not be set", ?_⟩
      simp only [setup, reduceIte, cleanupArgsAt, callsUpTo, ne_eq, h7,
        not_false_eq_true, if_true]
      simp
  | draw =>
      obtain ⟨h1, h2, h3, h4, h5, h6, h7, h8⟩ := hfail
      obtain ⟨w, hw⟩ := Option.isSome_iff_exists.mp h2
      obtain ⟨r, hr⟩ := Option.isSome_iff_exists.mp h3
      obtain ⟨t, ht⟩ := Option.isSome_iff_exists.mp h4
      obtain ⟨f, hf⟩ := Option.isSome_iff_exists.mp h6
      simp only at h1 hw hr ht h5 hf h7 h8
      subst h1
      subst hw
      subst hr
      subst ht
      subst h5
      subst hf
      subst h7
      refine ⟨"SDL2 renderer draw color could not be set", ?_⟩
      simp only [setup, reduceIte, cleanupArgsAt, callsUpTo, ne_eq, h8,
        not_false_eq_true, if_true]
      simp
  | malloc =>
      obtain ⟨h1, h2, h3, h4, h5, h6, h7, h8, h9⟩ := hfail
      obtain ⟨w, hw⟩ := Option.isSome_iff_exists.mp h2
      obtain ⟨r, hr⟩ := Option.isSome_iff_exists.mp h3
      obtain ⟨t, ht⟩ := Option.isSome_iff_exists.mp h4
      obtain ⟨f, hf⟩ := Option.isSome_iff_exists.mp h6
      simp only at h1 hw hr ht h5 hf h7 h8 h9
      subst h1
      subst hw
      subst hr
      subst ht
      subst h5
      subst hf
      subst h7
      subst h8
      subst h9
      refine ⟨"Could not allocate client-side pixel buffer for offline rendering", ?_⟩
      simp only [setup, reduceIte, cleanupArgsAt, callsUpTo]
      simp



/--
C3: for every setup step, if it is the first to fail then the program
logs an error message, calls `cleanup` with exactly the resources
created so far, makes no further call (no retry, no other recovery)
and exits with `OS_FAILURE_RETURN_CODE`, the loop never entered.
-/
theorem C3_setup_failure_logs_cleanup_exit (env : SetupEnv) (step : SetupStep)
    (hfail : stepFailsFirst env step) :
    (∃ msg, setup env =
      (SetupOutcome.fail msg (cleanupArgsAt env step), callsUpTo env step)) ∧
    (∀ iters (mapRGB : Option Nat → Option Nat → Option Nat → Nat) b0,
      (runMain ⟨env, iters, mapRGB, b0⟩).exit = some OS_FAILURE_RETURN_CODE ∧
      (runMain ⟨env, iters, mapRGB, b0⟩).loopTrace = [] ∧
      (runMain ⟨env, iters, mapRGB, b0⟩).cleanupCalls =
        [cleanupArgsAt env step]) := by
  obtain ⟨msg, hset⟩ := setup_fail_eq env step hfail
  refine ⟨⟨msg, hset⟩, fun iters mapRGB b0 => ⟨?_, ?_, ?_⟩⟩ <;>
    simp [runMain, hset]

/-- A concrete environment whose renderer creation fails. -/
def setupEnvRendererFail : SetupEnv :=
  { initResult := 0, windowResult := some 1, rendererResult := none,
    textureResult := none, queryResult := 0, queriedFormat := 0,
    queriedW := 0, queriedH := 0, allocFormatResult := none,
    logicalSizeResult := 0, drawColorResult := 0, mallocResult := none }

/-- Witness for `C3_setup_failure_logs_cleanup_exit` at the renderer step. -/
theorem C3_setup_failure_logs_cleanup_exit_witness :
    stepFailsFirst setupEnvRendererFail SetupStep.renderer ∧
    ((∃ msg, setup setupEnvRendererFail =
      (SetupOutcome.fail msg
        (cleanupArgsAt setupEnvRendererFail SetupStep.renderer),
        callsUpTo setupEnvRendererFail SetupStep.renderer)) ∧
    (∀ iters (mapRGB : Option Nat → Option Nat → Option Nat → Nat) b0,
      (runMain ⟨setupEnvRendererFail, iters, mapRGB, b0⟩).exit =
        some OS_FAILURE_RETURN_CODE ∧
      (runMain ⟨setupEnvRendererFail, iters, mapRGB, b0⟩).loopTrace = [] ∧
      (runMain ⟨setupEnvRendererFail, iters, mapRGB, b0⟩).cleanupCalls =
        [cleanupArgsAt setupEnvRendererFail SetupStep.renderer])) :=
  ⟨⟨rfl, rfl, rfl⟩,
    C3_setup_failure_logs_cleanup_exit setupEnvRendererFail SetupStep.renderer
      ⟨rfl, rfl, rfl⟩⟩

/- ------------------------------------------------------------------
   Claim C6
   ------------------------------------------------------------------ -/

/-- When every setup step succeeds, `setup` returns the created
resources and the full list of calls. -/
theorem setup_ok_eq (env : SetupEnv) (w r t f buf : Nat)
    (h1 : env.initResult = 0) (hw : env.windowResult = some w)
    (hr : env.rendererResult = some r) (ht : env.textureResult = some t)
    (h5 : env.queryResult = 0) (hf : env.allocFormatResult = some f)
    (h7 : env.logicalSizeResult = 0) (h8 : env.drawColorResult = 0)
    (hm : env.mallocResult = some buf) :
    setup env = (SetupOutcome.ok w r t f buf env.queriedFormat,
      callsUpTo env SetupStep.malloc) := by
  obtain ⟨ir, wr, rr, tr, qr, qf, qw, qh, ar, lr, dr, mr⟩ := env
  simp only at h1 hw hr ht h5 hf h7 h8 hm
  subst h1
  subst hw
  subst hr
  subst ht
  subst h5
  subst hf
  subst h7
  subst h8
  subst hm
  simp only [setup, reduceIte, callsUpTo]
  simp

/-- Every run of the setup either fails first at some step or succeeds
at every step. -/
theorem setup_cases (env : SetupEnv) :
    (∃ step, stepFailsFirst env step) ∨
    (env.initResult = 0 ∧ env.windowResult.isSome ∧
      env.rendererResult.isSome ∧ env.textureResult.isSome ∧
      env.queryResult = 0 ∧ env.allocFormatResult.isSome ∧
      env.logicalSizeResult = 0 ∧ env.drawColorResult = 0 ∧
      env.mallocResult.isSome) := by
  by_cases h1 : env.initResult = 0
  · cases hw : env.windowResult with
    | none => exact Or.inl ⟨SetupStep.window, h1, hw⟩
    | some w =>
      have hw' : env.windowResult.isSome := Option.isSome_iff_exists.mpr ⟨w, hw⟩
      cases hr : env.rendererResult with
      | none => exact Or.inl ⟨SetupStep.renderer, h1, hw', hr⟩
      | some r =>
        have hr' : env.rendererResult.isSome :=
          Option.isSome_iff_exists.mpr ⟨r, hr⟩
        cases ht : env.textureResult with
        | none => exact Or.inl ⟨SetupStep.texture, h1, hw', hr', ht⟩
        | some t =>
          have ht' : env.textureResult.isSome :=
            Option.isSome_iff_exists.mpr ⟨t, ht⟩
          by_cases h5 : env.queryResult = 0
          · cases hf : env.allocFormatResult with
            | none => exact Or.inl ⟨SetupStep.alloc, h1, hw', hr', ht', h5, hf⟩
            | some f =>
              have hf' : env.allocFormatResult.isSome :=
                Option.isSome_iff_exists.mpr ⟨f, hf⟩
              by_cases h7 : env.logicalSizeResult = 0
              · by_cases h8 : env.drawColorResult = 0
                · cases hm : env.mallocResult with
                  | none =>
                      exact Or.inl ⟨SetupStep.malloc, h1, hw', hr', ht', h5,
                        hf', h7, h8, hm⟩
                  | some buf =>
                      exact Or.inr ⟨h1, rfl, rfl, rfl, h5, rfl, h7, h8, rfl⟩
                · exact Or.inl ⟨SetupStep.draw, h1, hw', hr', ht', h5, hf',
                    h7, h8⟩
              · exact Or.inl ⟨SetupStep.logical, h1, hw', hr', ht', h5, hf', h7⟩
          · exact Or.inl ⟨SetupStep.query, h1, hw', hr', ht', h5⟩
  · exact Or.inl ⟨SetupStep.init, h1⟩

/-- The calls made by `setup` are always a `callsUpTo` list. -/
theorem setup_snd_eq_callsUpTo (env : SetupEnv) :
    ∃ step, (setup env).2 = callsUpTo env step := by
  rcases setup_cases env with ⟨step, hstep⟩ | hok
  · obtain ⟨msg, hset⟩ := setup_fail_eq env step hstep
    exact ⟨step, by rw [hset]⟩
  · obtain ⟨h1, hw', hr', ht', h5, hf', h7, h8, hm'⟩ := hok
    obtain ⟨w, hw⟩ := Option.isSome_iff_exists.mp hw'
    obtain ⟨r, hr⟩ := Option.isSome_iff_exists.mp hr'
    obtain ⟨t, ht⟩ := Option.isSome_iff_exists.mp ht'
    obtain ⟨f, hf⟩ := Option.isSome_iff_exists.mp hf'
    obtain ⟨buf, hm⟩ := Option.isSome_iff_exists.mp hm'
    exact ⟨SetupStep.malloc,
      by rw [setup_ok_eq env w r t f buf h1 hw hr ht h5 hf h7 h8 hm]⟩

/--
C6: the streaming texture is created with exactly the virtual
resolution 160x144 (and the RGBA8888 streaming parameters), the
renderer's logical size is set to exactly that same resolution, both
happen in the setup phase — before the render loop starts — whenever
setup reaches them, and on the successful path both calls were made.
-/
theorem C6_texture_and_logical_size_virtual (env : SetupEnv) :
    (∀ fmt acc w h, SetupCall.createTexture fmt acc w h ∈ (setup env).2 →
      fmt = SDL_PIXELFORMAT_RGBA8888 ∧ acc = SDL_TEXTUREACCESS_STREAMING ∧
      w = WINDOW_WIDTH_VIRTUAL ∧ h = WINDOW_HEIGHT_VIRTUAL) ∧
    (∀ w h, SetupCall.setLogicalSize w h ∈ (setup env).2 →
      w = WINDOW_WIDTH_VIRTUAL ∧ h = WINDOW_HEIGHT_VIRTUAL) ∧
    (∀ w r t f buf fmt calls,
      setup env = (SetupOutcome.ok w r t f buf fmt, calls) →
      SetupCall.createTexture SDL_PIXELFORMAT_RGBA8888
        SDL_TEXTUREACCESS_STREAMING WINDOW_WIDTH_VIRTUAL WINDOW_HEIGHT_VIRTUAL
        ∈ calls ∧
      SetupCall.setLogicalSize WINDOW_WIDTH_VIRTUAL WINDOW_HEIGHT_VIRTUAL
        ∈ calls) ∧
    (∀ iters (mapRGB : Option Nat → Option Nat → Option Nat → Nat) b0,
      (runMain ⟨env, iters, mapRGB, b0⟩).setupCalls = (setup env).2) := by
  obtain ⟨step, hcalls⟩ := setup_snd_eq_callsUpTo env
  refine ⟨?_, ?_, ?_, ?_⟩
  · intro fmt acc w h hmem
    rw [hcalls] at hmem
    cases step <;> simp_all [callsUpTo]
  · intro w h hmem
    rw [hcalls] at hmem
    cases step <;> simp_all [callsUpTo]
  · intro w r t f buf fmt calls hok
    rcases setup_cases env with ⟨step', hstep'⟩ | hsucc
    · obtain ⟨msg, hset⟩ := setup_fail_eq env step' hstep'
      rw [hok] at hset
      exact absurd ((Prod.mk.injEq _ _ _ _).mp hset).1 (by simp)
    · obtain ⟨h1, hw', hr', ht', h5, hf', h7, h8, hm'⟩ := hsucc
      obtain ⟨w', hw⟩ := Option.isSome_iff_exists.mp hw'
      obtain ⟨r', hr⟩ := Option.isSome_iff_exists.mp hr'
      obtain ⟨t', ht⟩ := Option.isSome_iff_exists.mp ht'
      obtain ⟨f', hf⟩ := Option.isSome_iff_exists.mp hf'
      obtain ⟨buf', hm⟩ := Option.isSome_iff_exists.mp hm'
      have hset := setup_ok_eq env w' r' t' f' buf' h1 hw hr ht h5 hf h7 h8 hm
      rw [hok] at hset
      have hc : calls = callsUpTo env SetupStep.malloc :=
        ((Prod.mk.injEq _ _ _ _).mp hset).2
      rw [hc]
      constructor <;> simp [callsUpTo]
  · intro iters mapRGB b0
    obtain ⟨⟨out, calls⟩, hset⟩ : ∃ p, setup env = p := ⟨_, rfl⟩
    cases out with
    | fail msg args => simp [runMain, hset]
    | ok w r t f buf fmt =>
        obtain ⟨⟨r0, tr⟩, hloop⟩ : ∃ p, runLoop mapRGB iters ⟨false, b0⟩ = p :=
          ⟨_, rfl⟩
        cases r0 <;> simp [runMain, hset, hloop]

/- ------------------------------------------------------------------
   Claim C9
   ------------------------------------------------------------------ -/

/--
The SDL resources successfully created by the setup sequence, in
creation order (window, renderer, texture, pixel format) — the
claim's "resources successfully created up to that point".
-/
def createdSDLResources (env : SetupEnv) : List Nat :=
  if env.initResult = 0 then
    match env.windowResult with
    | none => []
    | some w =>
      match env.rendererResult with
      | none => [w]
      | some r =>
        match env.textureResult with
        | none => [w, r]
        | some t =>
          if env.queryResult = 0 then
            match env.allocFormatResult with
            | none => [w, r, t]
            | some f => [w, r, t, f]
          else [w, r, t]
  else []

/--
All resources created by the setup sequence: the SDL resources plus
the `malloc`ed client pixel buffer when setup reaches and succeeds at
the allocation.
-/
def createdResourcesAll (env : SetupEnv) : List Nat :=
  createdSDLResources env ++
    (if env.initResult = 0 ∧ env.windowResult.isSome ∧
        env.rendererResult.isSome ∧ env.textureResult.isSome ∧
        env.queryResult = 0 ∧ env.allocFormatResult.isSome ∧
        env.logicalSizeResult = 0 ∧ env.drawColorResult = 0 then
      (match env.mallocResult with
        | some buf => [buf]
        | none => [])
    else [])

/-- The resource handles a `cleanup` call actually releases. -/
def freedByCleanup (args : CleanupArgs) : List Nat :=
  (cleanup args).filterMap (fun a =>
    match a with
    | CleanupAction.freeFormat (some p) => some p
    | CleanupAction.freeFormat none => none
    | CleanupAction.destroyTexture p => some p
    | CleanupAction.destroyRenderer p => some p
    | CleanupAction.destroyWindow p => some p
    | CleanupAction.sdlQuit => none)

/-- `cleanup` always ends by calling `SDL_Quit`. -/
theorem cleanup_quit_mem (a : CleanupArgs) :
    CleanupAction.sdlQuit ∈ cleanup a := by
  obtain ⟨pw, pr, pt, pf⟩ := a
  simp [cleanup]

/-- `cleanup` calls `SDL_Quit` exactly once. -/
theorem cleanup_quit_count (a : CleanupArgs) :
    (cleanup a).count CleanupAction.sdlQuit = 1 := by
  obtain ⟨pw, pr, pt, pf⟩ := a
  cases pw <;> cases pr <;> cases pt <;> simp [cleanup]

/-- `SDL_Quit` is the last thing `cleanup` does. -/
theorem cleanup_quit_last (a : CleanupArgs) :
    (cleanup a).getLast? = some CleanupAction.sdlQuit := by
  obtain ⟨pw, pr, pt, pf⟩ := a
  cases pw <;> cases pr <;> cases pt <;> simp [cleanup]

/--
On the error path of the first failing step, `cleanup` releases
exactly the SDL resources created so far, in reverse creation order
(pixel format, texture, renderer, window).
-/
theorem freed_cleanupArgsAt (env : SetupEnv) (step : SetupStep)
    (hfail : stepFailsFirst env step) :
    freedByCleanup (cleanupArgsAt env step) =
      (createdSDLResources env).reverse := by
  obtain ⟨ir, wr, rr, tr, qr, qf, qw, qh, ar, lr, dr, mr⟩ := env
  cases step with
  | init =>
      have h1 : ir ≠ 0 := hfail
      simp [freedByCleanup, cleanup, cleanupArgsAt, createdSDLResources, h1]
  | window =>
      obtain ⟨h1, h2⟩ := hfail
      simp only at h1 h2
      subst h1
      subst h2
      simp [freedByCleanup, cleanup, cleanupArgsAt, createdSDLResources]
  | renderer =>
      obtain ⟨h1, h2, h3⟩ := hfail
      obtain ⟨w, hw⟩ := Option.isSome_iff_exists.mp h2
      simp only at h1 hw h3
      subst h1
      subst hw
      subst h3
      simp [freedByCleanup, cleanup, cleanupArgsAt, createdSDLResources]
  | texture =>
      obtain ⟨h1, h2, h3, h4⟩ := hfail
      obtain ⟨w, hw⟩ := Option.isSome_iff_exists.mp h2
      obtain ⟨r, hr⟩ := Option.isSome_iff_exists.mp h3
      simp only at h1 hw hr h4
      subst h1
      subst hw
      subst hr
      subst h4
      simp [freedByCleanup, cleanup, cleanupArgsAt, createdSDLResources]
  | query =>
      obtain ⟨h1, h2, h3, h4, h5⟩ := hfail
      obtain ⟨w, hw⟩ := Option.isSome_iff_exists.mp h2
      obtain ⟨r, hr⟩ := Option.isSome_iff_exists.mp h3
      obtain ⟨t, ht⟩ := Option.isSome_iff_exists.mp h4
      simp only at h1 hw hr ht h5
      subst h1
      subst hw
      subst hr
      subst ht
      simp [freedByCleanup, cleanup, cleanupArgsAt, createdSDLResources, h5]
  | alloc =>
      obtain ⟨h1, h2, h3, h4, h5, h6⟩ := hfail
      obtain ⟨w, hw⟩ := Option.isSome_iff_exists.mp h2
      obtain ⟨r, hr⟩ := Option.isSome_iff_exists.mp h3
      obtain ⟨t, ht⟩ := Option.isSome_iff_exists.mp h4
      simp only at h1 hw hr ht h5 h6
      subst h1
      subst hw
      subst hr
      subst ht
      subst h5
      subst h6
      simp [freedByCleanup, cleanup, cleanupArgsAt, createdSDLResources]
  | logical =>
      obtain ⟨h1, h2, h3, h4, h5, h6, h7⟩ := hfail
      obtain ⟨w, hw⟩ := Option.isSome_iff_exists.mp h2
      obtain ⟨r, hr⟩ := Option.isSome_iff_exists.mp h3
      obtain ⟨t, ht⟩ := Option.isSome_iff_exists.mp h4
      obtain ⟨f, hf⟩ := Option.isSome_iff_exists.mp h6
      simp only at h1 hw hr ht h5 hf h7
      subst h1
      subst hw
      subst hr
      subst ht
      subst h5
      subst hf
      simp [freedByCleanup, cleanup, cleanupArgsAt, createdSDLResources]
  | draw =>
      obtain ⟨h1, h2, h3, h4, h5, h6, h7, h8⟩ := hfail
      obtain ⟨w, hw⟩ := Option.isSome_iff_exists.mp h2
      obtain ⟨r, hr⟩ := Option.isSome_iff_exists.mp h3
      obtain ⟨t, ht⟩ := Option.isSome_iff_exists.mp h4
      obtain ⟨f, hf⟩ := Option.isSome_iff_exists.mp h6
      simp only at h1 hw hr ht h5 hf h7 h8
      subst h1
      subst hw
      subst hr
      subst ht
      subst h5
      subst hf
      simp [freedByCleanup, cleanup, cleanupArgsAt, createdSDLResources]
  | malloc =>
      obtain ⟨h1, h2, h3, h4, h5, h6, h7, h8, h9⟩ := hfail
      obtain ⟨w, hw⟩ := Option.isSome_iff_exists.mp h2
      obtain ⟨r, hr⟩ := Option.isSome_iff_exists.mp h3
      obtain ⟨t, ht⟩ := Option.isSome_iff_exists.mp h4
      obtain ⟨f, hf⟩ := Option.isSome_iff_exists.mp h6
      simp only at h1 hw hr ht h5 hf h7 h8 h9
      subst h1
      subst hw
      subst hr
      subst ht
      subst h5
      subst hf
      simp [freedByCleanup, cleanup, cleanupArgsAt, createdSDLResources]

/--
On the successful path, `cleanup` releases exactly the four SDL
resources, in reverse creation order.
-/
theorem freed_ok (env : SetupEnv) (w r t f : Nat)
    (h1 : env.initResult = 0) (hw : env.windowResult = some w)
    (hr : env.rendererResult = some r) (ht : env.textureResult = some t)
    (h5 : env.queryResult = 0) (hf : env.allocFormatResult = some f) :
    freedByCleanup (some w, some r, some t, some f) =
      (createdSDLResources env).reverse := by
  obtain ⟨ir, wr, rr, tr, qr, qf, qw, qh, ar, lr, dr, mr⟩ := env
  simp only at h1 hw hr ht h5 hf
  subst h1
  subst hw
  subst hr
  subst ht
  subst h5
  subst hf
  simp [freedByCleanup, cleanup, createdSDLResources]

/-- A concrete environment in which every setup step succeeds; the
client pixel buffer gets handle 99. -/
def setupEnvAllOk : SetupEnv :=
  { initResult := 0, windowResult := some 1, rendererResult := some 2,
    textureResult := some 3, queryResult := 0,
    queriedFormat := SDL_PIXELFORMAT_RGBA8888, queriedW := 160,
    queriedH := 144, allocFormatResult := some 4, logicalSizeResult := 0,
    drawColorResult := 0, mallocResult := some 99 }

/-- One iteration whose only pending event is `SDL_QUIT`. -/
def iterQuit : IterInput :=
  { events := [Event.quit], lockResult := 0, lockPtr := 7, lockPitch := 640,
    pitchInitial := 0, clearResult := 0, copyResult := 0 }

/-- A whole-run environment: successful setup, one iteration, quit. -/
def programEnvQuit : ProgramEnv :=
  { setupEnv := setupEnvAllOk, iterations := [iterQuit], mapRGB := constRGB,
    initialBuffer := fun _ => freshMallocPixel }

/--
C9 counterexample: on the successful exit path, the `malloc`ed client
pixel buffer (handle 99) was created but no cleanup call releases it,
so "no created resource is leaked on exit" is false as stated.
-/
theorem C9_client_buffer_never_freed :
    (runMain programEnvQuit).exit = some 0 ∧
    99 ∈ createdResourcesAll programEnvQuit.setupEnv ∧
    ∀ args ∈ (runMain programEnvQuit).cleanupCalls,
      99 ∉ freedByCleanup args := by
  have hclean : (runMain programEnvQuit).cleanupCalls =
      [(some 1, some 2, some 3, some 4)] := rfl
  refine ⟨rfl, by decide, ?_⟩
  rw [hclean]
  intro args ha
  rw [List.mem_singleton] at ha
  subst ha
  decide

/--
C9 amended: every terminating path out of `main` calls `cleanup`
exactly once, and that call releases exactly the SDL resources
successfully created on that path (window, renderer, texture, pixel
format), in reverse creation order — pixel format, texture, renderer,
window — with no SDL resource freed twice (given distinct handles) and
`SDL_Quit` called exactly once, as the last step; the `malloc`ed
client pixel buffer, however, is never freed (see the counterexample).
-/
theorem C9_cleanup_frees_exactly_created_sdl (penv : ProgramEnv)
    (hexit : (runMain penv).exit ≠ none) :
    (∃ args, (runMain penv).cleanupCalls = [args] ∧
      freedByCleanup args = (createdSDLResources penv.setupEnv).reverse ∧
      ((createdSDLResources penv.setupEnv).Nodup →
        (freedByCleanup args).Nodup) ∧
      (cleanup args).count CleanupAction.sdlQuit = 1 ∧
      (cleanup args).getLast? = some CleanupAction.sdlQuit) ∧
    (∀ a : CleanupArgs, CleanupAction.sdlQuit ∈ cleanup a) := by
  refine ⟨?_, cleanup_quit_mem⟩
  rcases setup_cases penv.setupEnv with ⟨step, hstep⟩ | hsucc
  · obtain ⟨msg, hset⟩ := setup_fail_eq penv.setupEnv step hstep
    have hclean : (runMain penv).cleanupCalls =
        [cleanupArgsAt penv.setupEnv step] := by
      simp [runMain, hset]
    refine ⟨cleanupArgsAt penv.setupEnv step, hclean,
      freed_cleanupArgsAt penv.setupEnv step hstep, ?_,
      cleanup_quit_count _, cleanup_quit_last _⟩
    intro hnd
    rw [freed_cleanupArgsAt penv.setupEnv step hstep]
    exact List.nodup_reverse.mpr hnd
  · obtain ⟨h1, hw', hr', ht', h5, hf', h7, h8, hm'⟩ := hsucc
    obtain ⟨w, hw⟩ := Option.isSome_iff_exists.mp hw'
    obtain ⟨r, hr⟩ := Option.isSome_iff_exists.mp hr'
    obtain ⟨t, ht⟩ := Option.isSome_iff_exists.mp ht'
    obtain ⟨f, hf⟩ := Option.isSome_iff_exists.mp hf'
    obtain ⟨buf, hm⟩ := Option.isSome_iff_exists.mp hm'
    have hset := setup_ok_eq penv.setupEnv w r t f buf h1 hw hr ht h5 hf h7 h8 hm
    obtain ⟨⟨r0, tr⟩, hloop⟩ :
        ∃ p, runLoop penv.mapRGB penv.iterations ⟨false, penv.initialBuffer⟩ = p :=
      ⟨_, rfl⟩
    cases r0 with
    | none =>
        exact absurd (by simp [runMain, hset, hloop]) hexit
    | some s' =>
        have hclean : (runMain penv).cleanupCalls =
            [(some w, some r, some t, some f)] := by
          simp [runMain, hset, hloop]
        refine ⟨(some w, some r, some t, some f), hclean,
          freed_ok penv.setupEnv w r t f h1 hw hr ht h5 hf, ?_,
          cleanup_quit_count _, cleanup_quit_last _⟩
        intro hnd
        rw [freed_ok penv.setupEnv w r t f h1 hw hr ht h5 hf]
        exact List.nodup_reverse.mpr hnd

/-- Witness for `C9_cleanup_frees_exactly_created_sdl`. -/
theorem C9_cleanup_frees_exactly_created_sdl_witness :
    (runMain programEnvQuit).exit ≠ none ∧
    ((∃ args, (runMain programEnvQuit).cleanupCalls = [args] ∧
      freedByCleanup args =
        (createdSDLResources programEnvQuit.setupEnv).reverse ∧
      ((createdSDLResources programEnvQuit.setupEnv).Nodup →
        (freedByCleanup args).Nodup) ∧
      (cleanup args).count CleanupAction.sdlQuit = 1 ∧
      (cleanup args).getLast? = some CleanupAction.sdlQuit) ∧
    (∀ a : CleanupArgs, CleanupAction.sdlQuit ∈ cleanup a)) :=
  ⟨fun h => Option.noConfusion
      ((show (runMain programEnvQuit).exit = some 0 from rfl) ▸ h),
    C9_cleanup_frees_exactly_created_sdl programEnvQuit
      (fun h => Option.noConfusion
        ((show (runMain programEnvQuit).exit = some 0 from rfl) ▸ h))⟩
